import Mathlib

/-!
Shallow embedding of the Rizana marketplace backend's negotiation, order and
payment flows (`rizana/api/controllers/chat.py`, `rizana/api/controllers/order.py`,
`rizana/api/services/stripe_service.py`) together with the data model of
`rizana/api/models/table.py`.

Conventions of the embedding:
- UUIDs are modelled as natural numbers; fresh UUIDs are drawn from a `nextId`
  counter threaded through the database state.
- Python floats carrying prices are modelled as rationals; Python's falsy test
  on a float (`x or y`) is modelled by an explicit comparison with 0.
- A database session is a record of lists of rows; `select(...).first()` and
  `.one()` become `List.find?`; committed updates rewrite the row in place.
- `datetime.now()` is modelled by an explicit `now : Nat` argument.
- A Python function that can raise becomes a function into `Except Err`;
  raising before commit leaves the caller's database unchanged, which the
  `...Run` wrappers make explicit.
- Calls to the external Stripe API are modelled by a `StripeEnv` record saying
  whether each external call succeeds (the provider is an external collaborator
  whose internals the repository does not implement).
-/

deriving instance DecidableEq for Except

namespace Rizana

/-- UUIDs, modelled as naturals. -/
abbrev Uid := Nat

/-- Python `float` prices, modelled as rationals. -/
abbrev Price := ℚ

/-- `ProposalStatus` from `rizana/api/schemas/chat.py`. -/
inductive ProposalStatus where
  | pending
  | accepted
  | rejected
deriving DecidableEq, Repr

/-- `OrderStatus` from `rizana/api/models/order.py`. -/
inductive OrderStatus where
  | pending
  | completed
  | canceled
deriving DecidableEq, Repr

/-- The fields of the `User` table row that the modelled flows read. -/
structure UserRow where
  id : Uid
  isActive : Bool
deriving DecidableEq, Repr

/-- The fields of the `Item` table row that the modelled flows read
(`BaseItem.price`, `Item.user_id`). -/
structure ItemRow where
  id : Uid
  userId : Uid
  price : Price
deriving DecidableEq, Repr

/-- The `Conversation` table row: `(buyer, seller, item)` plus bookkeeping. -/
structure ConversationRow where
  id : Uid
  itemId : Uid
  buyerId : Uid
  sellerId : Uid
  updatedAt : Nat
deriving DecidableEq, Repr

/-- The `Message` table row. -/
structure MessageRow where
  id : Uid
  message : String
  senderId : Uid
  receiverId : Uid
  conversationId : Uid
  sentAt : Nat
  isRead : Bool
deriving DecidableEq, Repr

/-- The `Proposal` table row. -/
structure ProposalRow where
  id : Uid
  proposedPrice : Price
  senderId : Uid
  receiverId : Uid
  conversationId : Uid
  status : ProposalStatus
deriving DecidableEq, Repr

/-- The `PaymentMethod` row: the card payload is irrelevant to the claims,
only identity and ownership are kept. -/
structure PaymentMethodRow where
  id : Uid
  userId : Uid
deriving DecidableEq, Repr

/-- The `BillingAddress` row, likewise reduced to identity and ownership. -/
structure BillingAddressRow where
  id : Uid
  userId : Uid
deriving DecidableEq, Repr

/-- The `Order` table row (`rizana/api/models/table.py`, class `Order`).
`payment_method_id` is kept optional because `StripeService.create_payment_intent`
guards on its falsiness. -/
structure OrderRow where
  id : Uid
  itemId : Uid
  status : OrderStatus
  buyerId : Uid
  sellerId : Uid
  totalPrice : Price
  currency : String
  paymentMethodId : Option Uid
  billingAddressId : Uid
  paymentStatus : String
  stripePaymentIntentId : Option String
deriving DecidableEq, Repr

/-- The `CharityContribution` table row. -/
structure CharityRow where
  orderId : Uid
  userId : Uid
  amount : Price
  isRounded : Bool
deriving DecidableEq, Repr

/-- A seller bank account (`BankAccountBase` in `rizana/api/models/payment.py`;
the table class itself is referenced by `confirm_payment` through
`order.seller.bank_accounts`). -/
structure BankAccountRow where
  id : Uid
  userId : Uid
deriving DecidableEq, Repr

/-- The `StripeSellerAccount` row (base class in `rizana/api/models/payment.py`). -/
structure SellerAccountRow where
  userId : Uid
  stripeAccountId : String
deriving DecidableEq, Repr

/-- The `Payout` row, with exactly the fields the constructor call in
`StripeService.confirm_payment` populates (the class body itself is not in the
model files; its shape is fixed by that call site). -/
structure PayoutRow where
  orderId : Uid
  sellerId : Uid
  baseAmount : Price
  platformFee : Price
  sellerAmount : Price
  currency : String
  status : String
  stripePaymentIntentId : String
  bankAccountId : Uid
  processedAt : Nat
deriving DecidableEq, Repr

/-- The database session state: one list of rows per table touched by the
modelled flows, plus a counter supplying fresh UUIDs. -/
structure DB where
  users : List UserRow
  items : List ItemRow
  conversations : List ConversationRow
  messages : List MessageRow
  proposals : List ProposalRow
  orders : List OrderRow
  paymentMethods : List PaymentMethodRow
  billingAddresses : List BillingAddressRow
  charities : List CharityRow
  bankAccounts : List BankAccountRow
  sellerAccounts : List SellerAccountRow
  payouts : List PayoutRow
  nextId : Uid
deriving DecidableEq, Repr

/-- The typed errors of `rizana/api/schemas/error.py` that the modelled flows
raise, plus `noResultFound` for an uncaught sqlalchemy `NoResultFound` and
`runtimeFailure` for a plain Python runtime failure: indexing an empty
`bank_accounts` list, or a `TypeError` from calling a method without a
required argument. -/
inductive Err where
  | userNotFound
  | userIsInactive
  | itemDoesNotExist
  | userNotAllowed (action : String)
  | conversationNotFound
  | proposalNotFound
  | orderNotFound
  | paymentMethodRequired
  | invalidPaymentAmount (amount : Price)
  | paymentIntentCreation
  | noResultFound
  | runtimeFailure
deriving DecidableEq, Repr

/-- `UserController.get_user` restricted to the id query used by the chat and
order flows: `.one()` or `UserNotFoundError`, then the `is_active` gate. -/
def getUser (db : DB) (uid : Uid) : Except Err UserRow :=
  match db.users.find? (fun u => u.id == uid) with
  | none => .error .userNotFound
  | some u => if u.isActive then .ok u else .error .userIsInactive

/-- Row lookup backing `ChatController.get_conversation_by_id`. -/
def findConversation (db : DB) (cid : Uid) : Option ConversationRow :=
  db.conversations.find? (fun c => c.id == cid)

/-- The item query of `OrderController.create_order` (order.py:58-62):
`select(Item).where(Item.id == item_id)` then `.first()`. -/
def findItem (db : DB) (iid : Uid) : Option ItemRow :=
  db.items.find? (fun it => it.id == iid)

/-- Rewrite the conversation with the given id (an ORM in-place update
followed by commit). -/
def updateConversation (db : DB) (c : ConversationRow) : DB :=
  { db with conversations := db.conversations.map (fun d => if d.id == c.id then c else d) }

/-- Rewrite the proposal with the given id. -/
def updateProposal (db : DB) (p : ProposalRow) : DB :=
  { db with proposals := db.proposals.map (fun q => if q.id == p.id then p else q) }

/-- Rewrite the order with the given id. -/
def updateOrder (db : DB) (o : OrderRow) : DB :=
  { db with orders := db.orders.map (fun q => if q.id == o.id then o else q) }

/-- `ChatController.create_conversation`: inserts a fresh row for the triple,
with no check that the triple is new (the table declares no unique constraint
over `(buyer_id, seller_id, item_id)`). -/
def createConversation (db : DB) (buyerId sellerId itemId : Uid) (now : Nat) :
    DB × ConversationRow :=
  let c : ConversationRow :=
    { id := db.nextId, itemId := itemId, buyerId := buyerId, sellerId := sellerId,
      updatedAt := now }
  ({ db with conversations := db.conversations ++ [c], nextId := db.nextId + 1 }, c)

/-- `MessageCreate` from `rizana/api/schemas/chat.py` (its validator requires
`item_id` or `conversation_id`; the embedding keeps both optional and lets the
operations behave as the controller code does). -/
structure MessageCreate where
  message : String
  receiverId : Uid
  itemId : Option Uid
  conversationId : Option Uid
deriving DecidableEq, Repr

/-- `ProposalCreate` from `rizana/api/schemas/chat.py`. -/
structure ProposalCreate where
  proposedPrice : Price
  receiverId : Uid
  itemId : Option Uid
  conversationId : Option Uid
deriving DecidableEq, Repr

/-- `ChatController.send_message`. When `conversation_id` is supplied the
conversation must exist (`get_conversation_by_id` raises otherwise, even when
`item_id` is also supplied). When it is absent the controller reaches
`item_controller.get_item(message_create.item_id)` (chat.py:150), which omits
the `user_id` argument `ItemController.get_item` requires (item.py:71): the
call raises `TypeError` before anything is stored, so this branch always
fails and never creates the conversation the surrounding code intends. -/
def sendMessage (db : DB) (senderId : Uid) (mc : MessageCreate) (now : Nat) :
    Except Err (DB × ConversationRow) :=
  match getUser db senderId with
  | .error e => .error e
  | .ok sender =>
    match getUser db mc.receiverId with
    | .error e => .error e
    | .ok receiver =>
      match mc.conversationId with
      | some cid =>
        match findConversation db cid with
        | none => .error .conversationNotFound
        | some conv =>
          let conv := { conv with updatedAt := now }
          let db := updateConversation db conv
          let msg : MessageRow :=
            { id := db.nextId, message := mc.message, senderId := sender.id,
              receiverId := receiver.id, conversationId := conv.id, sentAt := now,
              isRead := false }
          .ok ({ db with messages := db.messages ++ [msg], nextId := db.nextId + 1 }, conv)
      | none => .error .runtimeFailure

/-- `ChatController.create_proposal`. A missing or dangling `conversation_id`
raises `ConversationNotFoundError`, which is caught: with `item_id` absent the
error is re-raised (chat.py:211-212); with it present the controller reaches
`item_controller.get_item(proposal_create.item_id)` (chat.py:213), which omits
the `user_id` argument `ItemController.get_item` requires (item.py:71), so the
call raises `TypeError` and no conversation is created. On the resolved path
the stored proposal's receiver is computed from the conversation, ignoring
`proposal_create.receiver_id`. -/
def createProposal (db : DB) (senderId : Uid) (pc : ProposalCreate) (now : Nat) :
    Except Err (DB × ConversationRow) :=
  match getUser db senderId with
  | .error e => .error e
  | .ok sender =>
    match getUser db pc.receiverId with
    | .error e => .error e
    | .ok _receiver =>
      let resolved : Option ConversationRow :=
        match pc.conversationId with
        | none => none
        | some cid => findConversation db cid
      let step : Except Err (DB × ConversationRow) :=
        match resolved with
        | some conv =>
          let conv := { conv with updatedAt := now }
          .ok (updateConversation db conv, conv)
        | none =>
          match pc.itemId with
          | none => .error .conversationNotFound
          | some _ => .error .runtimeFailure
      match step with
      | .error e => .error e
      | .ok (db, conv) =>
        let p : ProposalRow :=
          { id := db.nextId, proposedPrice := pc.proposedPrice, senderId := sender.id,
            receiverId := if sender.id = conv.sellerId then conv.buyerId else conv.sellerId,
            conversationId := conv.id, status := .pending }
        .ok ({ db with proposals := db.proposals ++ [p], nextId := db.nextId + 1 }, conv)

/-- `ChatController.accept_proposal`: sender self-check, then party check,
then the status is overwritten to `accepted` with no look at its prior value. -/
def acceptProposal (db : DB) (proposalId userId : Uid) (now : Nat) :
    Except Err (DB × ConversationRow) :=
  match db.proposals.find? (fun p => p.id == proposalId) with
  | none => .error .proposalNotFound
  | some prop =>
    match findConversation db prop.conversationId with
    | none => .error .conversationNotFound
    | some conv =>
      if prop.senderId = userId then
        .error (.userNotAllowed "accept your own proposal")
      else if conv.sellerId ≠ userId ∧ conv.buyerId ≠ userId then
        .error (.userNotAllowed "accept a proposal that is not yours")
      else
        let db := updateProposal db { prop with status := .accepted }
        let conv := { conv with updatedAt := now }
        .ok (updateConversation db conv, conv)

/-- `ChatController.refuse_proposal`: only the party check (no sender
self-check), then the status is overwritten to `rejected` unconditionally. -/
def refuseProposal (db : DB) (proposalId userId : Uid) (now : Nat) :
    Except Err (DB × ConversationRow) :=
  match db.proposals.find? (fun p => p.id == proposalId) with
  | none => .error .proposalNotFound
  | some prop =>
    match findConversation db prop.conversationId with
    | none => .error .conversationNotFound
    | some conv =>
      if conv.sellerId ≠ userId ∧ conv.buyerId ≠ userId then
        .error (.userNotAllowed "refuse a proposal that is not yours")
      else
        let db := updateProposal db { prop with status := .rejected }
        let conv := { conv with updatedAt := now }
        .ok (updateConversation db conv, conv)

/-- `CharityContributionBase` as carried in the order-creation schema. -/
structure CharityCreate where
  amount : Price
  isRounded : Bool
deriving DecidableEq, Repr

/-- `OrderCreate` from `rizana/api/schemas/order.py`: the payment-method and
billing-address payloads are opaque to the claims, so only their presence is
modelled (they are always present in the schema). -/
structure OrderCreate where
  itemId : Uid
  status : OrderStatus
  charityContribution : Option CharityCreate
deriving DecidableEq, Repr

/-- `OrderController._get_accepted_proposal_price`: the first conversation for
`(buyer, seller, item)`, then the first of its proposals with status
`accepted`, returning its price. -/
def getAcceptedProposalPrice (db : DB) (itemId buyerId sellerId : Uid) : Option Price :=
  match db.conversations.find?
      (fun c => c.buyerId == buyerId && c.sellerId == sellerId && c.itemId == itemId) with
  | none => none
  | some conv =>
    match db.proposals.find?
        (fun p => p.conversationId == conv.id && p.status == ProposalStatus.accepted) with
    | none => none
    | some p => some p.proposedPrice

/-- `OrderController.create_order`. The buyer is the current user; the price is
`_get_accepted_proposal_price(...) or item.price` — Python's `or` falls back to
the list price when the proposal price is absent or equal to `0.0` (a falsy
float). Payment method and billing address rows are saved first, then the
order, then an optional charity contribution. -/
def createOrder (db : DB) (oc : OrderCreate) (currentUser : UserRow) (_now : Nat) :
    Except Err (DB × OrderRow) :=
  match findItem db oc.itemId with
  | none => .error .itemDoesNotExist
  | some item =>
    match getUser db item.userId with
    | .error e => .error e
    | .ok seller =>
    if currentUser.id = item.userId then
      .error (.userNotAllowed "Create an order for its own item")
    else
      let price :=
        match getAcceptedProposalPrice db oc.itemId currentUser.id seller.id with
        | some v => if v = 0 then item.price else v
        | none => item.price
      let pm : PaymentMethodRow := { id := db.nextId, userId := currentUser.id }
      let db := { db with paymentMethods := db.paymentMethods ++ [pm], nextId := db.nextId + 1 }
      let ba : BillingAddressRow := { id := db.nextId, userId := currentUser.id }
      let db := { db with billingAddresses := db.billingAddresses ++ [ba], nextId := db.nextId + 1 }
      let order : OrderRow :=
        { id := db.nextId, itemId := oc.itemId, status := oc.status,
          buyerId := currentUser.id, sellerId := seller.id, totalPrice := price,
          currency := "aed", paymentMethodId := some pm.id,
          billingAddressId := ba.id, paymentStatus := "pending",
          stripePaymentIntentId := none }
      let db := { db with orders := db.orders ++ [order], nextId := db.nextId + 1 }
      let db :=
        match oc.charityContribution with
        | none => db
        | some cc =>
          { db with charities := db.charities ++
              [{ orderId := order.id, userId := order.buyerId, amount := cc.amount,
                 isRounded := cc.isRounded }] }
      .ok (db, order)

/-- Outcomes of the external Stripe calls a flow may perform; the provider
itself is outside the repository, so each call is summarised by whether it
succeeds. -/
structure StripeEnv where
  accountCreationOk : Bool
  intentCreationOk : Bool
deriving DecidableEq, Repr

/-- A Stripe payment intent as the service reads it back: its status plus the
metadata fields `confirm_payment` consumes (`order_id`, `base_amount`,
`platform_fee`, parsed from strings in the source). -/
structure PaymentIntent where
  id : String
  clientSecret : String
  status : String
  orderId : Uid
  baseAmount : Price
  platformFee : Price
deriving DecidableEq, Repr

/-- The tail of `StripeService.create_payment_intent` once the seller's
Stripe account is settled: the amount computations, the `total_price <= 0`
check, then the external customer/intent creation. `int(base*0.05*100)` is
modelled as the floor of `base * 5` cents (exact arithmetic stands in for
float rounding); the tax, charity and total amounts the source also computes
are not read back by any modelled flow. -/
def finishPaymentIntent (db : DB) (order : OrderRow) (env : StripeEnv) :
    Except Err (DB × PaymentIntent) :=
  let baseAmount := order.totalPrice
  let platformFeeCents : ℤ := ⌊baseAmount * 5⌋
  if order.totalPrice ≤ 0 then
    .error (.invalidPaymentAmount order.totalPrice)
  else if env.intentCreationOk then
    .ok (db,
      { id := "pi", clientSecret := "secret", status := "requires_confirmation",
        orderId := order.id, baseAmount := baseAmount,
        platformFee := (platformFeeCents : ℚ) / 100 })
  else .error .paymentIntentCreation

/-- `StripeService.create_payment_intent`. Guard order as in the source:
buyer check, payment-method check, seller Stripe-account lookup or creation
(an external call that may fail), then the amount logic of
`finishPaymentIntent`. -/
def createPaymentIntent (db : DB) (order : OrderRow) (currentUser : UserRow)
    (env : StripeEnv) : Except Err (DB × PaymentIntent) :=
  if currentUser.id ≠ order.buyerId then
    .error (.userNotAllowed "Create a payment intent for an order that is not yours")
  else
    match order.paymentMethodId with
    | none => .error .paymentMethodRequired
    | some _ =>
      if (db.sellerAccounts.find? (fun a => a.userId == order.sellerId)).isSome then
        finishPaymentIntent db order env
      else if env.accountCreationOk then
        finishPaymentIntent
          { db with sellerAccounts := db.sellerAccounts ++
              [{ userId := order.sellerId, stripeAccountId := "acct_new" }] }
          order env
      else .error .paymentIntentCreation

/-- `StripeService.confirm_payment` on a successfully retrieved intent.
`select(Order).one()` raises when the metadata's order is absent; when the
order is not yet `paid` and the intent status is `succeeded`, the order is
marked paid, the intent id recorded, and one payout row is inserted whose
`seller_amount` is the metadata's `base_amount - platform_fee` and whose bank
account is the first of the seller's (`order.seller.bank_accounts[0]`, a
runtime failure when the seller has none); otherwise nothing changes. -/
def confirmPayment (db : DB) (intent : PaymentIntent) (now : Nat) :
    Except Err (DB × String) :=
  match db.orders.find? (fun o => o.id == intent.orderId) with
  | none => .error .noResultFound
  | some order =>
    if order.paymentStatus ≠ "paid" ∧ intent.status = "succeeded" then
      match db.bankAccounts.filter (fun b => b.userId == order.sellerId) with
      | [] => .error .runtimeFailure
      | b :: _ =>
        let db := updateOrder db
          { order with paymentStatus := "paid", stripePaymentIntentId := some intent.id }
        let payout : PayoutRow :=
          { orderId := order.id, sellerId := order.sellerId,
            baseAmount := intent.baseAmount, platformFee := intent.platformFee,
            sellerAmount := intent.baseAmount - intent.platformFee,
            currency := order.currency, status := "completed",
            stripePaymentIntentId := intent.id, bankAccountId := b.id,
            processedAt := now }
        .ok ({ db with payouts := db.payouts ++ [payout] }, intent.id)
    else .ok (db, intent.id)

/-- The database an operation leaves behind: the new state on success, the
caller's unchanged state when the operation raised before committing. -/
def createOrderRun (db : DB) (oc : OrderCreate) (u : UserRow) (now : Nat) : DB :=
  match createOrder db oc u now with
  | .ok (db', _) => db'
  | .error _ => db

/-- State left behind by `accept_proposal` (unchanged when it raises). -/
def acceptProposalRun (db : DB) (proposalId userId : Uid) (now : Nat) : DB :=
  match acceptProposal db proposalId userId now with
  | .ok (db', _) => db'
  | .error _ => db

/-- State left behind by `refuse_proposal` (unchanged when it raises). -/
def refuseProposalRun (db : DB) (proposalId userId : Uid) (now : Nat) : DB :=
  match refuseProposal db proposalId userId now with
  | .ok (db', _) => db'
  | .error _ => db

/-- The status of a stored proposal, by id. -/
def proposalStatus (db : DB) (pid : Uid) : Option ProposalStatus :=
  (db.proposals.find? (fun p => p.id == pid)).map (fun p => p.status)

/-- Two conversation rows carry the same `(buyer, seller, item)` triple. -/
def sameTriple (c d : ConversationRow) : Prop :=
  c.buyerId = d.buyerId ∧ c.sellerId = d.sellerId ∧ c.itemId = d.itemId

instance (c d : ConversationRow) : Decidable (sameTriple c d) :=
  inferInstanceAs (Decidable (c.buyerId = d.buyerId ∧ c.sellerId = d.sellerId ∧ c.itemId = d.itemId))

/-- The spec's `Conversation` invariant: no two stored conversations share the
`(buyer, seller, item)` triple. -/
def TriplesUnique (db : DB) : Prop :=
  ∀ c1 ∈ db.conversations, ∀ c2 ∈ db.conversations, sameTriple c1 c2 → c1 = c2

instance (db : DB) : Decidable (TriplesUnique db) :=
  inferInstanceAs
    (Decidable (∀ c1 ∈ db.conversations, ∀ c2 ∈ db.conversations, sameTriple c1 c2 → c1 = c2))

/-- The three `ChatController` operations quantified over by the uniqueness
claim. -/
inductive ChatOp where
  | message (senderId : Uid) (mc : MessageCreate) (now : Nat)
  | offer (senderId : Uid) (pc : ProposalCreate) (now : Nat)
  | newConversation (buyerId sellerId itemId : Uid) (now : Nat)
deriving DecidableEq, Repr

/-- The database state an operation leaves behind (raising leaves it as it
was). -/
def applyChatOp (db : DB) : ChatOp → DB
  | .message s mc now =>
    match sendMessage db s mc now with
    | .ok r => r.1
    | .error _ => db
  | .offer s pc now =>
    match createProposal db s pc now with
    | .ok r => r.1
    | .error _ => db
  | .newConversation b s i now => (createConversation db b s i now).1

/-- Left-to-right execution of a sequence of chat operations. -/
def applyChatOps (db : DB) : List ChatOp → DB
  | [] => db
  | op :: ops => applyChatOps (applyChatOp db op) ops

/-- An operation that cannot mint a duplicate triple. Messages and proposals
qualify unconditionally: their only conversation-inserting branch always
raises (`get_item` is called without its required `user_id`). Only a direct
`create_conversation` call is constrained, to a triple not yet present. -/
def chatOpSafe (db : DB) : ChatOp → Bool
  | .message _ _ _ => true
  | .offer _ _ _ => true
  | .newConversation b s i _ =>
    db.conversations.all (fun c => !(c.buyerId == b && c.sellerId == s && c.itemId == i))

/-- Every operation of the sequence is safe in the state it runs in. -/
def chatOpsSafe (db : DB) : List ChatOp → Bool
  | [] => true
  | op :: ops => chatOpSafe db op && chatOpsSafe (applyChatOp db op) ops

/-! ### Concrete rows and states used by the witnesses and counterexamples -/

/-- A database with no rows at all. -/
def db0 : DB :=
  { users := [], items := [], conversations := [], messages := [], proposals := [],
    orders := [], paymentMethods := [], billingAddresses := [], charities := [],
    bankAccounts := [], sellerAccounts := [], payouts := [], nextId := 100 }

/-- An active buyer. -/
def uBuyer : UserRow := { id := 1, isActive := true }

/-- An active seller. -/
def uSeller : UserRow := { id := 2, isActive := true }

/-- An active bystander. -/
def uOther : UserRow := { id := 3, isActive := true }

/-- The seller's listed item, priced 100. -/
def itemW : ItemRow := { id := 10, userId := 2, price := 100 }

/-- The conversation between the buyer and the seller about the item. -/
def convW : ConversationRow :=
  { id := 20, itemId := 10, buyerId := 1, sellerId := 2, updatedAt := 0 }

/-- A proposal from the buyer at price 50, already accepted. -/
def propAcc : ProposalRow :=
  { id := 30, proposedPrice := 50, senderId := 1, receiverId := 2,
    conversationId := 20, status := .accepted }

/-- A base marketplace state: three users, one item, one conversation holding
one accepted proposal, a seller bank account and Stripe account. -/
def dbW : DB :=
  { db0 with
    users := [uBuyer, uSeller, uOther],
    items := [itemW],
    conversations := [convW],
    proposals := [propAcc],
    bankAccounts := [{ id := 50, userId := 2 }],
    sellerAccounts := [{ userId := 2, stripeAccountId := "acct_w" }] }

/-- An order by the buyer for the item at the accepted price, not yet paid. -/
def orderW : OrderRow :=
  { id := 40, itemId := 10, status := .pending, buyerId := 1, sellerId := 2,
    totalPrice := 50, currency := "aed", paymentMethodId := some 41,
    billingAddressId := 42, paymentStatus := "pending", stripePaymentIntentId := none }

/-- The base state together with the unpaid order. -/
def dbP : DB := { dbW with orders := [orderW] }

/-- A succeeded payment intent for that order, carrying the metadata amounts. -/
def intentW : PaymentIntent :=
  { id := "pi_w", clientSecret := "cs_w", status := "succeeded", orderId := 40,
    baseAmount := 50, platformFee := 5 / 2 }

/-- The successful result of a fallible operation (with a fallback that is
never used in the closed statements below, all of which run on succeeding
inputs). -/
def getOk {α : Type} (x : Except Err α) (fallback : α) : α :=
  match x with
  | .ok r => r
  | .error _ => fallback

/-- An order-creation request for the seller's item, no charity contribution. -/
def ocW : OrderCreate := { itemId := 10, status := .pending, charityContribution := none }

/-- A proposal request addressed to the existing conversation; note the claim
about receiver inference makes its `receiverId` irrelevant. -/
def pcW : ProposalCreate :=
  { proposedPrice := 55, receiverId := 2, itemId := none, conversationId := some 20 }

/-- A message request with no conversation id and a valid item id. -/
def mcFresh : MessageCreate :=
  { message := "hi", receiverId := 2, itemId := some 10, conversationId := none }

/-- A message request addressing a dangling conversation id while also
supplying a valid item id. -/
def mcDangling : MessageCreate :=
  { message := "hi", receiverId := 2, itemId := some 10, conversationId := some 99 }

/-- A proposal request addressing a dangling conversation id while also
supplying a valid item id. -/
def pcDangling : ProposalCreate :=
  { proposedPrice := 55, receiverId := 2, itemId := some 10, conversationId := some 99 }

/-- A safe operation sequence: a fresh triple, then a message into the
existing conversation. -/
def opsW : List ChatOp :=
  [ChatOp.newConversation 4 5 11 0,
   ChatOp.message 1 { message := "x", receiverId := 2, itemId := none, conversationId := some 20 } 1]

/-- The state and conversation `create_proposal` returns on the base state. -/
def rProp : DB × ConversationRow := getOk (createProposal dbW 1 pcW 3) (dbW, convW)

/-- The state and conversation `accept_proposal` returns on the base state. -/
def rAcc : DB × ConversationRow := getOk (acceptProposal dbW 30 2 4) (dbW, convW)

/-- The state and conversation `refuse_proposal` returns on the base state. -/
def rRef : DB × ConversationRow := getOk (refuseProposal dbW 30 2 5) (dbW, convW)

/-- The state and response `confirm_payment` returns on the unpaid order. -/
def rConf : DB × String := getOk (confirmPayment dbP intentW 9) (dbP, "")

/-- The order with its price zeroed out, for the payment-amount guard. -/
def orderZero : OrderRow := { orderW with totalPrice := 0 }

/-- A Stripe environment in which every external call succeeds. -/
def envT : StripeEnv := { accountCreationOk := true, intentCreationOk := true }

/-- The order as it stands after the successful confirmation. -/
def orderPaid : OrderRow :=
  { orderW with paymentStatus := "paid", stripePaymentIntentId := some "pi_w" }

/-! ### Helper lemmas -/

/-- Replacing every row keyed like the row `find?` located rewrites the
`find?` result to the replacement. -/
theorem find?_map_update {α : Type} (key : α → Uid) (l : List α) (k : Uid)
    (x y : α) (h : l.find? (fun q => key q == k) = some x) (hk : key y = key x) :
    (l.map (fun q => if key q == key y then y else q)).find? (fun q => key q == k)
      = some y := by
  have hxk : key x = k := by
    have := List.find?_some h
    simpa using this
  induction l with
  | nil => simp at h
  | cons a t ih =>
    cases hcond : key a == k with
    | true =>
      simp only [List.find?_cons, hcond] at h
      have hax : a = x := by injection h
      subst hax
      have hyk : (key y == k) = true := by simp [hk, hxk]
      have haa : (key a == key y) = true := by simp [hk, hxk]
      simp only [List.map_cons]
      rw [if_pos haa]
      simp only [List.find?_cons, hyk]
    | false =>
      simp only [List.find?_cons, hcond] at h
      have hne : (key a == key y) = false := by
        rw [hk, hxk]
        exact hcond
      simp only [List.map_cons]
      rw [if_neg (by simp [hne])]
      simp only [List.find?_cons, hcond]
      exact ih h

/-- Updating a stored conversation without touching its triple preserves
triple-uniqueness of the conversation list. -/
theorem triplesUnique_map_update (l : List ConversationRow) (c0 c1 : ConversationRow)
    (hmem : c0 ∈ l) (hid : c1.id = c0.id) (hb : c1.buyerId = c0.buyerId)
    (hs : c1.sellerId = c0.sellerId) (hi : c1.itemId = c0.itemId)
    (hU : ∀ a ∈ l, ∀ b ∈ l, sameTriple a b → a = b) :
    ∀ a ∈ l.map (fun d => if d.id == c1.id then c1 else d),
      ∀ b ∈ l.map (fun d => if d.id == c1.id then c1 else d), sameTriple a b → a = b := by
  intro a ha b hbm hab
  rcases List.mem_map.1 ha with ⟨da, hda, rfl⟩
  rcases List.mem_map.1 hbm with ⟨dbb, hdb, rfl⟩
  by_cases h1 : (da.id == c1.id) = true <;> by_cases h2 : (dbb.id == c1.id) = true
  · simp [h1, h2]
  · exfalso
    simp only [if_pos h1, if_neg h2] at hab
    have h0b : sameTriple c0 dbb :=
      ⟨hb ▸ hab.1, hs ▸ hab.2.1, hi ▸ hab.2.2⟩
    have he : c0 = dbb := hU c0 hmem dbb hdb h0b
    apply h2
    simp [← he, hid]
  · exfalso
    simp only [if_neg h1, if_pos h2] at hab
    have hb0 : sameTriple da c0 :=
      ⟨hab.1.trans hb, hab.2.1.trans hs, hab.2.2.trans hi⟩
    have he : da = c0 := hU da hda c0 hmem hb0
    apply h1
    simp [he, hid]
  · simp only [if_neg h1, if_neg h2] at hab ⊢
    exact hU da hda dbb hdb hab

/-- Appending a conversation whose triple is not yet present preserves
triple-uniqueness. -/
theorem triplesUnique_append (l : List ConversationRow) (c : ConversationRow)
    (hfresh : ∀ d ∈ l, ¬ sameTriple d c)
    (hU : ∀ a ∈ l, ∀ b ∈ l, sameTriple a b → a = b) :
    ∀ a ∈ l ++ [c], ∀ b ∈ l ++ [c], sameTriple a b → a = b := by
  intro a ha b hbm hab
  rcases List.mem_append.1 ha with ha' | ha'
  · rcases List.mem_append.1 hbm with hb' | hb'
    · exact hU a ha' b hb' hab
    · have hbc : b = c := by simpa using hb'
      subst hbc
      exact absurd hab (hfresh a ha')
  · have hac : a = c := by simpa using ha'
    subst hac
    rcases List.mem_append.1 hbm with hb' | hb'
    · exact absurd ⟨hab.1.symm, hab.2.1.symm, hab.2.2.symm⟩ (hfresh b hb')
    · have : b = a := by simpa using hb'
      rw [this]

/-- A user returned by `getUser` carries the queried id. -/
theorem getUser_ok_id (db : DB) (uid : Uid) (u : UserRow)
    (h : getUser db uid = .ok u) : u.id = uid := by
  unfold getUser at h
  cases hf : db.users.find? (fun v => v.id == uid) with
  | none => rw [hf] at h; cases h
  | some v =>
    simp only [hf] at h
    have hvid : v.id = uid := by
      have := List.find?_some hf
      simpa using this
    by_cases hv : v.isActive = true
    · rw [if_pos hv] at h
      cases h
      exact hvid
    · rw [if_neg hv] at h
      cases h

/-- A successful `send_message` resolved an existing conversation by id and
only rewrote its `updated_at` (appending a message): the creation branch of
the source always raises before inserting anything. -/
theorem sendMessage_ok_conversations (db : DB) (s : Uid) (mc : MessageCreate)
    (now : Nat) (db' : DB) (conv : ConversationRow)
    (h : sendMessage db s mc now = .ok (db', conv)) :
    ∃ cid c0, mc.conversationId = some cid ∧ findConversation db cid = some c0 ∧
      db'.conversations = db.conversations.map
        (fun d => if d.id == ({ c0 with updatedAt := now } : ConversationRow).id
          then { c0 with updatedAt := now } else d) := by
  unfold sendMessage at h
  cases hgs : getUser db s with
  | error e => rw [hgs] at h; cases h
  | ok sender =>
    cases hgr : getUser db mc.receiverId with
    | error e => simp only [hgs, hgr] at h; cases h
    | ok receiver =>
      cases hcid : mc.conversationId with
      | none => simp only [hgs, hgr, hcid] at h; cases h
      | some cid =>
        cases hfc : findConversation db cid with
        | none => simp only [hgs, hgr, hcid, hfc] at h; cases h
        | some c0 =>
          simp only [hgs, hgr, hcid, hfc] at h
          cases h
          exact ⟨cid, c0, rfl, hfc, rfl⟩

/-- A successful `create_proposal` resolved an existing conversation by id and
only rewrote its `updated_at` (appending a proposal): the caught-error branch
of the source always raises before inserting anything. -/
theorem createProposal_ok_conversations (db : DB) (s : Uid) (pc : ProposalCreate)
    (now : Nat) (db' : DB) (conv : ConversationRow)
    (h : createProposal db s pc now = .ok (db', conv)) :
    ∃ cid c0, pc.conversationId = some cid ∧ findConversation db cid = some c0 ∧
      db'.conversations = db.conversations.map
        (fun d => if d.id == ({ c0 with updatedAt := now } : ConversationRow).id
          then { c0 with updatedAt := now } else d) := by
  unfold createProposal at h
  cases hgs : getUser db s with
  | error e => rw [hgs] at h; cases h
  | ok sender =>
    cases hgr : getUser db pc.receiverId with
    | error e => simp only [hgs, hgr] at h; cases h
    | ok receiver =>
      cases hcid : pc.conversationId with
      | none =>
        simp only [hgs, hgr, hcid] at h
        cases hit : pc.itemId with
        | none => simp only [hit] at h; cases h
        | some iid => simp only [hit] at h; cases h
      | some cid =>
        cases hfc : findConversation db cid with
        | none =>
          simp only [hgs, hgr, hcid, hfc] at h
          cases hit : pc.itemId with
          | none => simp only [hit] at h; cases h
          | some iid => simp only [hit] at h; cases h
        | some c0 =>
          simp only [hgs, hgr, hcid, hfc] at h
          cases h
          exact ⟨cid, c0, rfl, hfc, rfl⟩

/-- One safe chat operation preserves triple-uniqueness (messages and
proposals do so unconditionally; only direct creation needs its guard). -/
theorem chatOp_preserves_triplesUnique (db : DB) (op : ChatOp)
    (hU : TriplesUnique db) (hsafe : chatOpSafe db op = true) :
    TriplesUnique (applyChatOp db op) := by
  cases op with
  | message s mc now =>
    simp only [applyChatOp]
    cases hsm : sendMessage db s mc now with
    | error e => exact hU
    | ok r =>
      rcases sendMessage_ok_conversations db s mc now r.1 r.2 (by rw [hsm]) with
        ⟨cid, c0, hcid, hfc, hconvs⟩
      intro a ha b hbm hab
      simp only [hsm] at ha hbm
      rw [hconvs] at ha hbm
      exact triplesUnique_map_update db.conversations c0 { c0 with updatedAt := now }
        (List.mem_of_find?_eq_some hfc) rfl rfl rfl rfl hU a ha b hbm hab
  | offer s pc now =>
    simp only [applyChatOp]
    cases hsm : createProposal db s pc now with
    | error e => exact hU
    | ok r =>
      rcases createProposal_ok_conversations db s pc now r.1 r.2 (by rw [hsm]) with
        ⟨cid, c0, hcid, hfc, hconvs⟩
      intro a ha b hbm hab
      simp only [hsm] at ha hbm
      rw [hconvs] at ha hbm
      exact triplesUnique_map_update db.conversations c0 { c0 with updatedAt := now }
        (List.mem_of_find?_eq_some hfc) rfl rfl rfl rfl hU a ha b hbm hab
  | newConversation b sl i now =>
    simp only [chatOpSafe, List.all_eq_true] at hsafe
    intro a ha c hcm hac
    have hfresh : ∀ d ∈ db.conversations,
        ¬ sameTriple d { id := db.nextId, itemId := i, buyerId := b, sellerId := sl, updatedAt := now } := by
      intro d hd hsame
      have := hsafe d hd
      simp only [Bool.not_eq_true] at this
      rcases hsame with ⟨h1, h2, h3⟩
      simp [h1, h2, h3] at this
    exact triplesUnique_append db.conversations _ hfresh hU a ha c hcm hac

/-- A successful `create_proposal` appends exactly one proposal: pending, sent
by the caller, attached to the returned conversation, priced as requested, and
addressed to whichever conversation party did not send it. -/
theorem createProposal_ok_spec (db : DB) (s : Uid) (pc : ProposalCreate) (now : Nat)
    (d : DB) (c : ConversationRow)
    (h : createProposal db s pc now = .ok (d, c)) :
    ∃ p : ProposalRow, d.proposals = db.proposals ++ [p] ∧ p.status = .pending ∧
      p.conversationId = c.id ∧ p.senderId = s ∧
      p.receiverId = (if s = c.sellerId then c.buyerId else c.sellerId) ∧
      p.proposedPrice = pc.proposedPrice := by
  unfold createProposal at h
  cases hgs : getUser db s with
  | error e => rw [hgs] at h; cases h
  | ok sender =>
    have hsid : sender.id = s := getUser_ok_id db s sender hgs
    cases hgr : getUser db pc.receiverId with
    | error e => simp only [hgs, hgr] at h; cases h
    | ok receiver =>
      simp only [hgs, hgr] at h
      cases hres : (match pc.conversationId with
          | none => none
          | some cid => findConversation db cid : Option ConversationRow) with
      | some conv =>
        simp only [hres] at h
        cases h
        refine ⟨_, rfl, rfl, rfl, hsid, ?_, rfl⟩
        rw [hsid]
      | none =>
        simp only [hres] at h
        cases hit : pc.itemId with
        | none => simp only [hit] at h; cases h
        | some iid => simp only [hit] at h; cases h

/-- A successful `accept_proposal` leaves the targeted proposal `accepted`. -/
theorem acceptProposal_ok_status (db : DB) (pid uid : Uid) (now : Nat)
    (d : DB) (c : ConversationRow)
    (h : acceptProposal db pid uid now = .ok (d, c)) :
    proposalStatus d pid = some .accepted := by
  unfold acceptProposal at h
  cases hp : db.proposals.find? (fun p => p.id == pid) with
  | none => rw [hp] at h; cases h
  | some prop =>
    simp only [hp] at h
    cases hc : findConversation db prop.conversationId with
    | none => rw [hc] at h; cases h
    | some conv =>
      simp only [hc] at h
      by_cases h1 : prop.senderId = uid
      · rw [if_pos h1] at h; cases h
      · rw [if_neg h1] at h
        by_cases h2 : conv.sellerId ≠ uid ∧ conv.buyerId ≠ uid
        · rw [if_pos h2] at h; cases h
        · rw [if_neg h2] at h
          cases h
          unfold proposalStatus
          simp only [updateConversation, updateProposal]
          rw [find?_map_update ProposalRow.id db.proposals pid prop
            { prop with status := .accepted } hp rfl]
          rfl

/-- A successful `refuse_proposal` leaves the targeted proposal `rejected`. -/
theorem refuseProposal_ok_status (db : DB) (pid uid : Uid) (now : Nat)
    (d : DB) (c : ConversationRow)
    (h : refuseProposal db pid uid now = .ok (d, c)) :
    proposalStatus d pid = some .rejected := by
  unfold refuseProposal at h
  cases hp : db.proposals.find? (fun p => p.id == pid) with
  | none => rw [hp] at h; cases h
  | some prop =>
    simp only [hp] at h
    cases hc : findConversation db prop.conversationId with
    | none => rw [hc] at h; cases h
    | some conv =>
      simp only [hc] at h
      by_cases h2 : conv.sellerId ≠ uid ∧ conv.buyerId ≠ uid
      · rw [if_pos h2] at h; cases h
      · rw [if_neg h2] at h
        cases h
        unfold proposalStatus
        simp only [updateConversation, updateProposal]
        rw [find?_map_update ProposalRow.id db.proposals pid prop
          { prop with status := .rejected } hp rfl]
        rfl

/-! ### Claim theorems -/

/-- C2, counterexample: the conversation table has no unique constraint over
`(buyer_id, seller_id, item_id)` and `create_conversation` performs no
existence check, so starting from a triple-unique state a single
`create_conversation` call for an already-present triple leaves two rows with
the same `(buyer, seller, item)`. -/
theorem conversation_triple_uniqueness_counterexample :
    TriplesUnique dbW ∧
      ¬ TriplesUnique (applyChatOps dbW [ChatOp.newConversation 1 2 10 0]) := by
  decide

/-- C2 (amended): after any sequence of `send_message`, `create_proposal` and
`create_conversation` operations in which every direct `create_conversation`
call uses a triple not yet present, a triple-unique state stays triple-unique;
`send_message` and `create_proposal` need no restriction, since their only
conversation-inserting branch always raises before storing anything. (As
stated the claim fails: `create_conversation` never checks the triple and the
table has no unique constraint, see the counterexample.) -/
theorem conversation_triple_uniqueness_of_safe_ops (db : DB) (ops : List ChatOp)
    (hU : TriplesUnique db) (hsafe : chatOpsSafe db ops = true) :
    TriplesUnique (applyChatOps db ops) := by
  induction ops generalizing db with
  | nil => exact hU
  | cons op ops ih =>
    simp only [chatOpsSafe, Bool.and_eq_true] at hsafe
    exact ih (applyChatOp db op) (chatOp_preserves_triplesUnique db op hU hsafe.1) hsafe.2

/-- Witness: the amended uniqueness theorem applied to the base state and a
concrete safe sequence. -/
theorem conversation_triple_uniqueness_of_safe_ops_witness :
    (TriplesUnique dbW ∧ chatOpsSafe dbW opsW = true) ∧
      TriplesUnique (applyChatOps dbW opsW) :=
  ⟨⟨by decide, by decide⟩,
    conversation_triple_uniqueness_of_safe_ops dbW opsW (by decide) (by decide)⟩

/-- C4: for a successful `create_proposal` the stored proposal's receiver is
whichever party of the resolved conversation did not send it — the seller when
the sender is not the seller, the buyer otherwise — regardless of the
`receiver_id` in the request. -/
theorem proposal_receiver_inferred_from_conversation (db : DB) (s : Uid)
    (pc : ProposalCreate) (now : Nat) (d : DB) (conv : ConversationRow)
    (h : createProposal db s pc now = .ok (d, conv))
    (_hparty : s = conv.buyerId ∨ s = conv.sellerId) :
    ∃ p : ProposalRow, d.proposals = db.proposals ++ [p] ∧ p.senderId = s ∧
      p.receiverId = (if s = conv.sellerId then conv.buyerId else conv.sellerId) := by
  rcases createProposal_ok_spec db s pc now d conv h with ⟨p, h1, _, _, h4, h5, _⟩
  exact ⟨p, h1, h4, h5⟩

/-- Witness: receiver inference at the base state, where the buyer sends into
the existing conversation. -/
theorem proposal_receiver_inferred_from_conversation_witness :
    (createProposal dbW 1 pcW 3 = .ok (rProp.1, rProp.2) ∧
      (1 = rProp.2.buyerId ∨ 1 = rProp.2.sellerId)) ∧
      ∃ p : ProposalRow, rProp.1.proposals = dbW.proposals ++ [p] ∧ p.senderId = 1 ∧
        p.receiverId = (if 1 = rProp.2.sellerId then rProp.2.buyerId else rProp.2.sellerId) :=
  ⟨⟨by decide, by decide⟩,
    proposal_receiver_inferred_from_conversation dbW 1 pcW 3 rProp.1 rProp.2
      (by decide) (by decide)⟩

/-- C5, counterexample: neither `accept_proposal` nor `refuse_proposal`
inspects the current status, so an already-accepted proposal is flipped to
rejected by a later `refuse_proposal` — accepted is not a terminal state. -/
theorem proposal_terminal_states_counterexample :
    proposalStatus dbW 30 = some .accepted ∧
      refuseProposal dbW 30 2 5 = .ok (rRef.1, rRef.2) ∧
      proposalStatus rRef.1 30 = some .rejected := by
  decide

/-- C5 (amended): the proposal state machine has exactly the states pending,
accepted and rejected, with pending initial; a successful `accept_proposal`
sets accepted and a successful `refuse_proposal` sets rejected, each
regardless of the prior status — accepted and rejected are not terminal. -/
theorem proposal_status_transitions_unconditional
    (db1 db2 db3 d1 d2 d3 : DB) (s pid2 uid2 pid3 uid3 : Uid)
    (pc : ProposalCreate) (n1 n2 n3 : Nat) (c1 c2 c3 : ConversationRow)
    (h1 : createProposal db1 s pc n1 = .ok (d1, c1))
    (h2 : acceptProposal db2 pid2 uid2 n2 = .ok (d2, c2))
    (h3 : refuseProposal db3 pid3 uid3 n3 = .ok (d3, c3)) :
    (∃ p : ProposalRow, d1.proposals = db1.proposals ++ [p] ∧ p.status = .pending)
      ∧ proposalStatus d2 pid2 = some .accepted
      ∧ proposalStatus d3 pid3 = some .rejected := by
  refine ⟨?_, acceptProposal_ok_status db2 pid2 uid2 n2 d2 c2 h2,
    refuseProposal_ok_status db3 pid3 uid3 n3 d3 c3 h3⟩
  rcases createProposal_ok_spec db1 s pc n1 d1 c1 h1 with ⟨p, ha, hb, _⟩
  exact ⟨p, ha, hb⟩

/-- Witness: the three transitions exercised on the base state. -/
theorem proposal_status_transitions_unconditional_witness :
    (createProposal dbW 1 pcW 3 = .ok (rProp.1, rProp.2) ∧
      acceptProposal dbW 30 2 4 = .ok (rAcc.1, rAcc.2) ∧
      refuseProposal dbW 30 2 5 = .ok (rRef.1, rRef.2)) ∧
      ((∃ p : ProposalRow, rProp.1.proposals = dbW.proposals ++ [p] ∧ p.status = .pending)
        ∧ proposalStatus rAcc.1 30 = some .accepted
        ∧ proposalStatus rRef.1 30 = some .rejected) :=
  ⟨⟨by decide, by decide, by decide⟩,
    proposal_status_transitions_unconditional dbW dbW dbW rProp.1 rAcc.1 rRef.1
      1 30 2 30 2 pcW 3 4 5 rProp.2 rAcc.2 rRef.2 (by decide) (by decide) (by decide)⟩

/-- C10: on an existing proposal and conversation, `refuse_proposal` raises
`UserNotAllowed` exactly when the refuser is neither the conversation's buyer
nor its seller; in particular — unlike `accept_proposal` — the proposal's own
sender, being a party, may refuse (withdraw) their proposal. -/
theorem refuse_proposal_party_check (db : DB) (pid uid : Uid) (now : Nat)
    (prop : ProposalRow) (conv : ConversationRow)
    (hprop : db.proposals.find? (fun p => p.id == pid) = some prop)
    (hconv : findConversation db prop.conversationId = some conv) :
    ((∃ a, refuseProposal db pid uid now = .error (.userNotAllowed a)) ↔
      (uid ≠ conv.sellerId ∧ uid ≠ conv.buyerId))
    ∧ (uid = prop.senderId → (uid = conv.sellerId ∨ uid = conv.buyerId) →
        ∃ d c, refuseProposal db pid uid now = .ok (d, c)) := by
  have hred : refuseProposal db pid uid now =
      (if conv.sellerId ≠ uid ∧ conv.buyerId ≠ uid then
        .error (.userNotAllowed "refuse a proposal that is not yours")
      else
        .ok (updateConversation (updateProposal db { prop with status := .rejected })
          { conv with updatedAt := now }, { conv with updatedAt := now })) := by
    unfold refuseProposal
    simp only [hprop, hconv]
  constructor
  · constructor
    · rintro ⟨a, ha⟩
      rw [hred] at ha
      by_cases h2 : conv.sellerId ≠ uid ∧ conv.buyerId ≠ uid
      · exact ⟨fun he => h2.1 he.symm, fun he => h2.2 he.symm⟩
      · rw [if_neg h2] at ha
        exact Except.noConfusion ha
    · rintro ⟨hs, hb⟩
      rw [hred, if_pos ⟨fun he => hs he.symm, fun he => hb he.symm⟩]
      exact ⟨_, rfl⟩
  · intro _ hpar
    have hnot : ¬ (conv.sellerId ≠ uid ∧ conv.buyerId ≠ uid) := by
      rcases hpar with h | h
      · exact fun hx => hx.1 h.symm
      · exact fun hx => hx.2 h.symm
    rw [hred, if_neg hnot]
    exact ⟨_, _, rfl⟩

/-- Witness: the buyer, who sent the accepted proposal, successfully refuses
it, and the party check characterisation holds at that input. -/
theorem refuse_proposal_party_check_witness :
    (dbW.proposals.find? (fun p => p.id == 30) = some propAcc ∧
      findConversation dbW propAcc.conversationId = some convW) ∧
      (((∃ a, refuseProposal dbW 30 1 6 = .error (.userNotAllowed a)) ↔
        ((1 : Uid) ≠ convW.sellerId ∧ (1 : Uid) ≠ convW.buyerId))
      ∧ ((1 : Uid) = propAcc.senderId → ((1 : Uid) = convW.sellerId ∨ (1 : Uid) = convW.buyerId) →
          ∃ d c, refuseProposal dbW 30 1 6 = .ok (d, c))) :=
  ⟨⟨by decide, by decide⟩,
    refuse_proposal_party_check dbW 30 1 6 propAcc convW (by decide) (by decide)⟩

/-- C3: `create_order` raises `UserNotAllowed` (storing nothing) exactly when
the buyer owns the item, and `accept_proposal`'s self-check raises
`UserNotAllowed` (changing nothing) exactly when the acceptor sent the
proposal; with existing records and the self-conditions false, neither check
raises — `create_order` succeeds outright, and `accept_proposal` never
produces the self-accept error (succeeding whenever the acceptor is a party). -/
theorem self_dealing_checks_raise_user_not_allowed
    (db : DB) (oc : OrderCreate) (u : UserRow) (now : Nat)
    (item : ItemRow) (seller : UserRow)
    (hitem : findItem db oc.itemId = some item)
    (hseller : getUser db item.userId = .ok seller)
    (pid uid : Uid) (now2 : Nat) (prop : ProposalRow) (conv : ConversationRow)
    (hprop : db.proposals.find? (fun p => p.id == pid) = some prop)
    (hconv : findConversation db prop.conversationId = some conv) :
    ((u.id = item.userId →
        createOrder db oc u now = .error (.userNotAllowed "Create an order for its own item")
        ∧ createOrderRun db oc u now = db)
      ∧ (u.id ≠ item.userId → ∃ d o, createOrder db oc u now = .ok (d, o)))
    ∧ ((uid = prop.senderId →
        acceptProposal db pid uid now2 = .error (.userNotAllowed "accept your own proposal")
        ∧ acceptProposalRun db pid uid now2 = db)
      ∧ (uid ≠ prop.senderId →
          acceptProposal db pid uid now2 ≠ .error (.userNotAllowed "accept your own proposal")
          ∧ ((uid = conv.sellerId ∨ uid = conv.buyerId) →
            ∃ d c, acceptProposal db pid uid now2 = .ok (d, c)))) := by
  have hacc : acceptProposal db pid uid now2 =
      (if prop.senderId = uid then .error (.userNotAllowed "accept your own proposal")
       else if conv.sellerId ≠ uid ∧ conv.buyerId ≠ uid then
         .error (.userNotAllowed "accept a proposal that is not yours")
       else .ok (updateConversation (updateProposal db { prop with status := .accepted })
         { conv with updatedAt := now2 }, { conv with updatedAt := now2 })) := by
    unfold acceptProposal
    simp only [hprop, hconv]
  constructor
  · constructor
    · intro he
      have h1 : createOrder db oc u now
          = .error (.userNotAllowed "Create an order for its own item") := by
        unfold createOrder
        simp only [hitem, hseller]
        rw [if_pos he]
      exact ⟨h1, by unfold createOrderRun; rw [h1]⟩
    · intro hne
      unfold createOrder
      simp only [hitem, hseller]
      rw [if_neg hne]
      exact ⟨_, _, rfl⟩
  · constructor
    · intro he
      have h1 : acceptProposal db pid uid now2
          = .error (.userNotAllowed "accept your own proposal") := by
        rw [hacc, if_pos he.symm]
      exact ⟨h1, by unfold acceptProposalRun; rw [h1]⟩
    · intro hne
      have hns : ¬ (prop.senderId = uid) := fun hx => hne hx.symm
      constructor
      · rw [hacc, if_neg hns]
        by_cases h2 : conv.sellerId ≠ uid ∧ conv.buyerId ≠ uid
        · rw [if_pos h2]
          decide
        · rw [if_neg h2]
          intro hx
          exact Except.noConfusion hx
      · intro hpar
        have hnot : ¬ (conv.sellerId ≠ uid ∧ conv.buyerId ≠ uid) := by
          rcases hpar with h | h
          · exact fun hx => hx.1 h.symm
          · exact fun hx => hx.2 h.symm
        rw [hacc, if_neg hns, if_neg hnot]
        exact ⟨_, _, rfl⟩

/-- Witness: the self-dealing checks at the base state, for the buyer ordering
the seller's item and the seller accepting the buyer's proposal. -/
theorem self_dealing_checks_raise_user_not_allowed_witness :
    (findItem dbW ocW.itemId = some itemW ∧
      getUser dbW itemW.userId = .ok uSeller ∧
      dbW.proposals.find? (fun p => p.id == 30) = some propAcc ∧
      findConversation dbW propAcc.conversationId = some convW) ∧
      (((uBuyer.id = itemW.userId →
          createOrder dbW ocW uBuyer 7 = .error (.userNotAllowed "Create an order for its own item")
          ∧ createOrderRun dbW ocW uBuyer 7 = dbW)
        ∧ (uBuyer.id ≠ itemW.userId → ∃ d o, createOrder dbW ocW uBuyer 7 = .ok (d, o)))
      ∧ (((2 : Uid) = propAcc.senderId →
          acceptProposal dbW 30 2 4 = .error (.userNotAllowed "accept your own proposal")
          ∧ acceptProposalRun dbW 30 2 4 = dbW)
        ∧ ((2 : Uid) ≠ propAcc.senderId →
            acceptProposal dbW 30 2 4 ≠ .error (.userNotAllowed "accept your own proposal")
            ∧ (((2 : Uid) = convW.sellerId ∨ (2 : Uid) = convW.buyerId) →
              ∃ d c, acceptProposal dbW 30 2 4 = .ok (d, c))))) :=
  ⟨⟨by decide, by decide, by decide, by decide⟩,
    self_dealing_checks_raise_user_not_allowed dbW ocW uBuyer 7 itemW uSeller
      (by decide) (by decide) 30 2 4 propAcc convW (by decide) (by decide)⟩

/-- C1: for a `create_order` call by a non-owner buyer over well-formed
negotiation state (at most one conversation for the buyer/seller/item triple,
at most one accepted proposal per conversation, and — per the model's
`gt=0` constraint — positive proposal prices), the created order's total price
is the accepted proposal's price when the buyer/seller/item conversation holds
an accepted proposal, and the item's list price otherwise. -/
theorem order_total_price_prefers_accepted_proposal
    (db : DB) (oc : OrderCreate) (u : UserRow) (now : Nat)
    (item : ItemRow) (seller : UserRow)
    (hitem : findItem db oc.itemId = some item)
    (hseller : getUser db item.userId = .ok seller)
    (hnotown : u.id ≠ item.userId)
    (huniq : ∀ c1 ∈ db.conversations, ∀ c2 ∈ db.conversations,
      (c1.buyerId = u.id ∧ c1.sellerId = seller.id ∧ c1.itemId = oc.itemId) →
      (c2.buyerId = u.id ∧ c2.sellerId = seller.id ∧ c2.itemId = oc.itemId) → c1 = c2)
    (haccu : ∀ c ∈ db.conversations, ∀ p1 ∈ db.proposals, ∀ p2 ∈ db.proposals,
      p1.conversationId = c.id → p2.conversationId = c.id →
      p1.status = .accepted → p2.status = .accepted → p1 = p2)
    (hpos : ∀ p ∈ db.proposals, 0 < p.proposedPrice) :
    ∃ d o, createOrder db oc u now = .ok (d, o) ∧
      (∀ c ∈ db.conversations,
        c.buyerId = u.id → c.sellerId = seller.id → c.itemId = oc.itemId →
        ∀ p ∈ db.proposals, p.conversationId = c.id → p.status = .accepted →
          o.totalPrice = p.proposedPrice)
      ∧ ((¬ ∃ c ∈ db.conversations,
            (c.buyerId = u.id ∧ c.sellerId = seller.id ∧ c.itemId = oc.itemId)
            ∧ ∃ p ∈ db.proposals, p.conversationId = c.id ∧ p.status = .accepted) →
          o.totalPrice = item.price) := by
  unfold createOrder
  simp only [hitem, hseller]
  rw [if_neg hnotown]
  cases hc : db.conversations.find?
      (fun c => c.buyerId == u.id && c.sellerId == seller.id && c.itemId == oc.itemId) with
  | none =>
    have hnone : getAcceptedProposalPrice db oc.itemId u.id seller.id = none := by
      unfold getAcceptedProposalPrice
      simp only [hc]
    simp only [hnone]
    refine ⟨_, _, rfl, ?_, ?_⟩
    · intro c hcm e1 e2 e3 p hpm e4 e5
      exfalso
      have := List.find?_eq_none.1 hc c hcm
      apply this
      simp [e1, e2, e3]
    · intro _
      rfl
  | some conv0 =>
    have hcpred := List.find?_some hc
    simp only [Bool.and_eq_true, beq_iff_eq] at hcpred
    have hcb : conv0.buyerId = u.id := hcpred.1.1
    have hcs : conv0.sellerId = seller.id := hcpred.1.2
    have hci : conv0.itemId = oc.itemId := hcpred.2
    have hcmem := List.mem_of_find?_eq_some hc
    cases hpp : db.proposals.find?
        (fun p => p.conversationId == conv0.id && p.status == ProposalStatus.accepted) with
    | none =>
      have hnone : getAcceptedProposalPrice db oc.itemId u.id seller.id = none := by
        unfold getAcceptedProposalPrice
        simp only [hc, hpp]
      simp only [hnone]
      refine ⟨_, _, rfl, ?_, ?_⟩
      · intro c hcm e1 e2 e3 p hpm e4 e5
        exfalso
        have hceq : c = conv0 := huniq c hcm conv0 hcmem ⟨e1, e2, e3⟩ ⟨hcb, hcs, hci⟩
        have := List.find?_eq_none.1 hpp p hpm
        apply this
        rw [hceq] at e4
        simp [e4, e5]
      · intro _
        rfl
    | some p0 =>
      have hppred := List.find?_some hpp
      simp only [Bool.and_eq_true, beq_iff_eq] at hppred
      have hp0mem := List.mem_of_find?_eq_some hpp
      have hsomev : getAcceptedProposalPrice db oc.itemId u.id seller.id
          = some p0.proposedPrice := by
        unfold getAcceptedProposalPrice
        simp only [hc, hpp]
      simp only [hsomev]
      have hvpos : 0 < p0.proposedPrice := hpos p0 hp0mem
      rw [if_neg hvpos.ne']
      refine ⟨_, _, rfl, ?_, ?_⟩
      · intro c hcm e1 e2 e3 p hpm e4 e5
        have hceq : c = conv0 := huniq c hcm conv0 hcmem ⟨e1, e2, e3⟩ ⟨hcb, hcs, hci⟩
        rw [hceq] at e4
        have hpeq : p = p0 := haccu conv0 hcmem p hpm p0 hp0mem e4 hppred.1 e5 hppred.2
        show p0.proposedPrice = p.proposedPrice
        rw [hpeq]
      · intro hnex
        exact absurd ⟨conv0, hcmem, ⟨hcb, hcs, hci⟩, p0, hp0mem, hppred.1, hppred.2⟩ hnex

/-- Witness: at the base state the buyer's order picks up the accepted
proposal's price of 50 rather than the 100 list price. -/
theorem order_total_price_prefers_accepted_proposal_witness :
    (findItem dbW ocW.itemId = some itemW ∧
      getUser dbW itemW.userId = .ok uSeller ∧
      uBuyer.id ≠ itemW.userId ∧
      (∀ p ∈ dbW.proposals, 0 < p.proposedPrice)) ∧
      ∃ d o, createOrder dbW ocW uBuyer 7 = .ok (d, o) ∧
        (∀ c ∈ dbW.conversations,
          c.buyerId = uBuyer.id → c.sellerId = uSeller.id → c.itemId = ocW.itemId →
          ∀ p ∈ dbW.proposals, p.conversationId = c.id → p.status = .accepted →
            o.totalPrice = p.proposedPrice)
        ∧ ((¬ ∃ c ∈ dbW.conversations,
              (c.buyerId = uBuyer.id ∧ c.sellerId = uSeller.id ∧ c.itemId = ocW.itemId)
              ∧ ∃ p ∈ dbW.proposals, p.conversationId = c.id ∧ p.status = .accepted) →
            o.totalPrice = itemW.price) :=
  ⟨⟨by decide, by decide, by decide, by decide⟩,
    order_total_price_prefers_accepted_proposal dbW ocW uBuyer 7 itemW uSeller
      (by decide) (by decide) (by decide) (by decide) (by decide) (by decide)⟩

/-- C6: confirming a succeeded intent for an order not yet paid (whose seller
has a bank account on file) marks the order paid, records the intent id on it,
and inserts exactly one payout for that order whose seller amount is the
metadata's base amount minus platform fee. -/
theorem confirm_payment_marks_paid_and_creates_payout
    (db : DB) (intent : PaymentIntent) (now : Nat) (order : OrderRow)
    (horder : db.orders.find? (fun o => o.id == intent.orderId) = some order)
    (hnotpaid : order.paymentStatus ≠ "paid")
    (hsucc : intent.status = "succeeded")
    (b : BankAccountRow) (bs : List BankAccountRow)
    (hbank : db.bankAccounts.filter (fun a => a.userId == order.sellerId) = b :: bs) :
    ∃ d, confirmPayment db intent now = .ok (d, intent.id) ∧
      (d.orders.find? (fun o => o.id == intent.orderId)).map (fun o => o.paymentStatus)
        = some "paid" ∧
      (d.orders.find? (fun o => o.id == intent.orderId)).map (fun o => o.stripePaymentIntentId)
        = some (some intent.id) ∧
      ∃ p : PayoutRow, d.payouts = db.payouts ++ [p] ∧ p.orderId = order.id ∧
        p.sellerAmount = intent.baseAmount - intent.platformFee := by
  unfold confirmPayment
  simp only [horder]
  rw [if_pos ⟨hnotpaid, hsucc⟩]
  simp only [hbank]
  refine ⟨_, rfl, ?_, ?_, ⟨_, rfl, rfl, rfl⟩⟩
  · simp only [updateOrder]
    rw [find?_map_update OrderRow.id db.orders intent.orderId order
      { order with paymentStatus := "paid", stripePaymentIntentId := some intent.id } horder rfl]
    rfl
  · simp only [updateOrder]
    rw [find?_map_update OrderRow.id db.orders intent.orderId order
      { order with paymentStatus := "paid", stripePaymentIntentId := some intent.id } horder rfl]
    rfl

/-- Witness: confirming the succeeded intent on the unpaid order of the base
state. -/
theorem confirm_payment_marks_paid_and_creates_payout_witness :
    (dbP.orders.find? (fun o => o.id == intentW.orderId) = some orderW ∧
      orderW.paymentStatus ≠ "paid" ∧ intentW.status = "succeeded" ∧
      dbP.bankAccounts.filter (fun a => a.userId == orderW.sellerId)
        = [{ id := 50, userId := 2 }]) ∧
      ∃ d, confirmPayment dbP intentW 9 = .ok (d, intentW.id) ∧
        (d.orders.find? (fun o => o.id == intentW.orderId)).map (fun o => o.paymentStatus)
          = some "paid" ∧
        (d.orders.find? (fun o => o.id == intentW.orderId)).map (fun o => o.stripePaymentIntentId)
          = some (some intentW.id) ∧
        ∃ p : PayoutRow, d.payouts = dbP.payouts ++ [p] ∧ p.orderId = orderW.id ∧
          p.sellerAmount = intentW.baseAmount - intentW.platformFee :=
  ⟨⟨by decide, by decide, by decide, by decide⟩,
    confirm_payment_marks_paid_and_creates_payout dbP intentW 9 orderW
      (by decide) (by decide) (by decide) { id := 50, userId := 2 } [] (by decide)⟩

/-- C8: once the order an intent refers to is recorded as paid — as after a
first successful confirmation — a further `confirm_payment` on the same intent
returns the state unchanged: no order update and no second payout. -/
theorem confirm_payment_idempotent (db : DB) (intent : PaymentIntent) (now now2 : Nat)
    (db1 : DB) (r : String)
    (_hfirst : confirmPayment db intent now = .ok (db1, r))
    (order1 : OrderRow)
    (horder1 : db1.orders.find? (fun o => o.id == intent.orderId) = some order1)
    (hpaid : order1.paymentStatus = "paid") :
    confirmPayment db1 intent now2 = .ok (db1, intent.id) := by
  unfold confirmPayment
  simp only [horder1]
  rw [if_neg (fun hx => hx.1 hpaid)]

/-- Witness: a second confirmation after the successful one on the base state
returns the paid state unchanged. -/
theorem confirm_payment_idempotent_witness :
    (confirmPayment dbP intentW 9 = .ok (rConf.1, rConf.2) ∧
      rConf.1.orders.find? (fun o => o.id == intentW.orderId) = some orderPaid ∧
      orderPaid.paymentStatus = "paid") ∧
      confirmPayment rConf.1 intentW 11 = .ok (rConf.1, intentW.id) :=
  ⟨⟨by with_unfolding_all decide, by with_unfolding_all decide, by decide⟩,
    confirm_payment_idempotent dbP intentW 9 11 rConf.1 rConf.2 (by with_unfolding_all decide)
      orderPaid (by with_unfolding_all decide) (by decide)⟩

/-- C9, counterexample: when the caller is not the buyer and the order total is
non-positive, `create_payment_intent` raises `UserNotAllowed`, not
`InvalidPaymentAmountError` — so the claim's "raises InvalidPaymentAmountError
whenever total_price ≤ 0" fails as stated. -/
theorem payment_intent_error_precedence_counterexample :
    orderZero.totalPrice ≤ 0 ∧
      uOther.id ≠ orderZero.buyerId ∧
      createPaymentIntent dbP orderZero uOther envT
        = .error (.userNotAllowed "Create a payment intent for an order that is not yours") ∧
      createPaymentIntent dbP orderZero uOther envT
        ≠ .error (.invalidPaymentAmount orderZero.totalPrice) := by
  decide

/-- C9 (amended): `create_payment_intent` raises `UserNotAllowed` whenever the
caller is not the order's buyer; and when the caller is the buyer, a payment
method is set, and the seller's Stripe account exists or its creation
succeeds, it raises `InvalidPaymentAmountError` whenever the order total is
non-positive. In both cases no payment intent is returned. -/
theorem payment_intent_guard_errors (db : DB) (order : OrderRow) (u : UserRow)
    (env : StripeEnv) (pmid : Uid) :
    (u.id ≠ order.buyerId →
      createPaymentIntent db order u env
        = .error (.userNotAllowed "Create a payment intent for an order that is not yours"))
    ∧ (u.id = order.buyerId → order.paymentMethodId = some pmid →
        ((db.sellerAccounts.find? (fun a => a.userId == order.sellerId)).isSome = true
          ∨ env.accountCreationOk = true) →
        order.totalPrice ≤ 0 →
        createPaymentIntent db order u env
          = .error (.invalidPaymentAmount order.totalPrice)) := by
  constructor
  · intro hne
    unfold createPaymentIntent
    rw [if_pos hne]
  · intro he hpm hacct hle
    have hne' : ¬ (u.id ≠ order.buyerId) := fun hx => hx he
    unfold createPaymentIntent
    rw [if_neg hne']
    simp only [hpm]
    by_cases hfind : (db.sellerAccounts.find? (fun a => a.userId == order.sellerId)).isSome = true
    · rw [if_pos hfind]
      unfold finishPaymentIntent
      rw [if_pos hle]
    · rcases hacct with hs | hok
      · exact absurd hs hfind
      · rw [if_neg hfind, if_pos hok]
        unfold finishPaymentIntent
        rw [if_pos hle]

/-- Witness: at the base state, the buyer requesting an intent for the
zero-priced order receives `InvalidPaymentAmountError`. -/
theorem payment_intent_guard_errors_witness :
    (uBuyer.id = orderZero.buyerId ∧ orderZero.paymentMethodId = some 41 ∧
      ((dbP.sellerAccounts.find? (fun a => a.userId == orderZero.sellerId)).isSome = true
        ∨ envT.accountCreationOk = true) ∧ orderZero.totalPrice ≤ 0) ∧
      createPaymentIntent dbP orderZero uBuyer envT
        = .error (.invalidPaymentAmount orderZero.totalPrice) :=
  ⟨⟨by decide, by decide, Or.inl (by decide), by decide⟩,
    (payment_intent_guard_errors dbP orderZero uBuyer envT 41).2
      (by decide) (by decide) (Or.inl (by decide)) (by decide)⟩

/-- C7, code bug: the lazy conversation-creation path never runs. With no
`conversation_id`, `send_message` reaches `item_controller.get_item(item_id)`
(chat.py:150), and `create_proposal` with an unresolvable `conversation_id`
plus an `item_id` reaches the same call (chat.py:213); both omit the
`user_id` argument `ItemController.get_item` requires (item.py:71), so the
call raises `TypeError` and no conversation is created — although the claim,
the commented-out code at chat.py:157-170 and the repository's own tests
(`test_send_message_success_without_conversation`,
`test_create_proposal_success_buyer_send_proposal_without_conversation_created`)
all describe the conversation being created with the item's owner as seller
and the non-owner sender as buyer. This theorem evaluates the code at those
failing inputs: the creation-branch calls fail and leave the state unchanged
(a dangling id in `send_message` raises `ConversationNotFoundError` before the
branch is even reached). -/
theorem lazy_conversation_creation_type_error :
    sendMessage dbW 1 mcFresh 8 = .error .runtimeFailure ∧
      applyChatOp dbW (ChatOp.message 1 mcFresh 8) = dbW ∧
      createProposal dbW 1 pcDangling 8 = .error .runtimeFailure ∧
      applyChatOp dbW (ChatOp.offer 1 pcDangling 8) = dbW ∧
      sendMessage dbW 1 mcDangling 0 = .error .conversationNotFound := by
  decide

end Rizana
